/-
Verification of the IDSMS driving-school backend core
(scheduling validators, lesson status updates, M-Pesa payment
initiation and callback reconciliation) against its specification.

The Python source is shallowly embedded: datetimes are minutes since an
epoch falling on a Monday 00:00 (so Python's `weekday()`, `.hour` and
`.minute` become integer arithmetic), monetary amounts are rationals,
database rows are Lean structures holding exactly the columns the
SQLModel classes declare, and a SQLAlchemy/SQLModel class-attribute
lookup (which raises `AttributeError` when the model declares no such
column) is modelled by resolution against the literal field list of the
model class.  Functions that can raise return `Except PyErr`.
-/
import Mathlib

namespace IDSMS

/-! ## Time model

A `DateTime` is a number of minutes since an epoch placed at a Monday
00:00.  `weekday`, `hour` and `minute` agree with Python's
`datetime.weekday()` (Monday = 0 … Sunday = 6), `.hour` and `.minute`.
-/

abbrev DateTime := Int

def DateTime.weekday (t : DateTime) : Int := (t / 1440) % 7

def DateTime.hour (t : DateTime) : Int := (t % 1440) / 60

def DateTime.minute (t : DateTime) : Int := t % 60

/-! ## Python-level errors

`attributeError n` models Python raising `AttributeError` when name `n`
is looked up on a model class that declares no such column;
`nameError n` models `NameError` for an unresolvable module-level name.
-/

inductive PyErr where
  | attributeError (name : String)
  | nameError (name : String)
  | typeError
  | valueError
  deriving DecidableEq, Repr

/-! ## Schedule validator messages

One constructor per distinct error message returned by
`app/validators/schedule_validator.py`.
-/

inductive ScheduleMsg where
  | startBefore7        -- "Lessons cannot start before 7:00 AM"
  | endAfter19          -- "Lessons must end by 19:00 PM"
  | startOutside        -- "Lesson start time is outside business hours"
  | endNotAfterStart    -- "Lesson end time must be after start time"
  | tooShort            -- "Lesson must be at least 30 minutes"
  | tooLong             -- "Lesson cannot exceed 180 minutes"
  | past                -- "Cannot schedule lessons in the past"
  | tooSoon             -- "Lessons must be booked at least 2 hours in advance"
  | tooFar              -- "Cannot book lessons more than 90 days in advance"
  | sunday              -- "Lessons are not available on Sundays"
  | saturdayHours       -- "Saturday lessons are only available between 8:00 AM and 5:00 PM"
  | instructorBusy      -- "Instructor is not available at this time (...)"
  | vehicleBusy         -- "Vehicle is not available at this time"
  deriving DecidableEq, Repr

/-! ## ScheduleValidator constants (schedule_validator.py, lines 13-26) -/

def BUSINESS_START_HOUR : Int := 7
def BUSINESS_END_HOUR : Int := 19
def MIN_LESSON_DURATION_MINUTES : Int := 30
def MAX_LESSON_DURATION_MINUTES : Int := 180
def MIN_ADVANCE_BOOKING_HOURS : Int := 2
def MAX_ADVANCE_BOOKING_DAYS : Int := 90
def MIN_BREAK_MINUTES : Int := 15

/-- `ScheduleValidator.validate_business_hours` (schedule_validator.py
lines 28-53).  Returns `none` when valid, `some msg` with the error
otherwise; the checks run in source order. -/
def validate_business_hours (start_time end_time : DateTime) : Option ScheduleMsg :=
  if start_time.hour < BUSINESS_START_HOUR then
    some .startBefore7
  else if end_time.hour ≥ BUSINESS_END_HOUR ∨
          (end_time.hour = BUSINESS_END_HOUR ∧ end_time.minute > 0) then
    some .endAfter19
  else if start_time.hour ≥ BUSINESS_END_HOUR then
    some .startOutside
  else
    none

/-- `ScheduleValidator.validate_lesson_duration` (schedule_validator.py
lines 55-78).  `duration_minutes = (end - start).total_seconds() / 60`
is exact at minute granularity. -/
def validate_lesson_duration (start_time end_time : DateTime) : Option ScheduleMsg :=
  if end_time ≤ start_time then
    some .endNotAfterStart
  else
    let duration_minutes : Int := end_time - start_time
    if duration_minutes < MIN_LESSON_DURATION_MINUTES then
      some .tooShort
    else if duration_minutes > MAX_LESSON_DURATION_MINUTES then
      some .tooLong
    else
      none

/-- `ScheduleValidator.validate_advance_booking` (schedule_validator.py
lines 80-107); `now` is the injected `datetime.utcnow()`. -/
def validate_advance_booking (now start_time : DateTime) : Option ScheduleMsg :=
  if start_time < now then
    some .past
  else
    let min_booking_time := now + MIN_ADVANCE_BOOKING_HOURS * 60
    if start_time < min_booking_time then
      some .tooSoon
    else
      let max_booking_time := now + MAX_ADVANCE_BOOKING_DAYS * 1440
      if start_time > max_booking_time then
        some .tooFar
      else
        none

/-- `ScheduleValidator.validate_weekend_scheduling` (schedule_validator.py
lines 109-129).  Only the start time is inspected; on Saturday only the
start hour is checked against 8..17. -/
def validate_weekend_scheduling (start_time : DateTime) : Option ScheduleMsg :=
  if start_time.weekday = 6 then
    some .sunday
  else if start_time.weekday = 5 ∧ (start_time.hour < 8 ∨ start_time.hour ≥ 17) then
    some .saturdayHours
  else
    none

/-! ## Lesson model (app/models/lesson.py) -/

inductive LessonStatus where
  | scheduled
  | completed
  | cancelled
  | no_show
  deriving DecidableEq, Repr

inductive LessonType where
  | theory
  | practical
  | exam
  deriving DecidableEq, Repr

/-- The persisted `Lesson` row: exactly the columns of `LessonBase`
(lesson.py lines 18-27) plus the `id` primary key (line 30).  Note the
model stores `scheduled_at` and `duration_minutes`; it has no
`start_time` or `end_time` column. -/
structure Lesson where
  id : Nat
  scheduled_at : DateTime
  status : LessonStatus
  type : LessonType
  notes : Option String
  duration_minutes : Int
  enrollment_id : Nat
  instructor_id : Nat
  vehicle_id : Option Nat
  deriving DecidableEq, Repr

/-- The column names the `Lesson` SQLModel class declares
(lesson.py lines 18-30). -/
def lessonColumns : List String :=
  ["scheduled_at", "status", "type", "notes", "duration_minutes",
   "enrollment_id", "instructor_id", "vehicle_id", "id"]

/-- Python class-attribute lookup `Lesson.<name>`: succeeds for a
declared column, raises `AttributeError` otherwise. -/
def lessonClassAttr (name : String) : Except PyErr Unit :=
  if name ∈ lessonColumns then .ok () else .error (.attributeError name)

/-! ## Interval-conflict conditions

The literal three-disjunct condition of the `or_(...)` in the
availability queries (schedule_validator.py lines 163-170 and 212-216),
over an existing lesson interval `[s,e)` and a query window `[a,b)`:
`(s <= a and e > a) or (s < b and e >= b) or (s >= a and e <= b)`. -/
def conflictCond (s e a b : Int) : Bool :=
  (s ≤ a ∧ e > a) ∨ (s < b ∧ e ≥ b) ∨ (s ≥ a ∧ e ≤ b)

/-- The condition of `check_instructor_availability`'s query: the
window is the lesson padded by `MIN_BREAK_MINUTES` on both sides
(schedule_validator.py lines 156-157). -/
def instructorConflictCond (s e start_time end_time : Int) : Bool :=
  let buffer_start := start_time - MIN_BREAK_MINUTES
  let buffer_end := end_time + MIN_BREAK_MINUTES
  conflictCond s e buffer_start buffer_end

/-- The condition of `check_vehicle_availability`'s query: the window
is the lesson itself, with no buffer (schedule_validator.py
lines 212-216). -/
def vehicleConflictCond (s e start_time end_time : Int) : Bool :=
  conflictCond s e start_time end_time

/-! ## Availability checks

Both checks build a SQLModel `select(...).where(...)` whose arguments
are evaluated left to right; each argument resolves class attributes of
`Lesson`.  `Lesson.instructor_id` / `Lesson.vehicle_id` and
`Lesson.status` resolve, but `Lesson.start_time` (first attribute of
the first `and_` of the `or_`) does not, so statement construction
raises `AttributeError` before the datastore is ever consulted. -/

/-- `ScheduleValidator.check_instructor_availability`
(schedule_validator.py lines 131-182).  The result is
`(is_valid, error_message)` as in the source; the query construction
resolves `Lesson` class attributes in source order. -/
def check_instructor_availability (instructor_id : Nat)
    (start_time end_time : DateTime) (store : List Lesson)
    (exclude_lesson_id : Option Nat) :
    Except PyErr (Bool × Option ScheduleMsg) := do
  let _buffer_start := start_time - MIN_BREAK_MINUTES
  let _buffer_end := end_time + MIN_BREAK_MINUTES
  let _ ← lessonClassAttr "instructor_id"
  let _ ← lessonClassAttr "status"
  let _ ← lessonClassAttr "start_time"
  let _ ← lessonClassAttr "end_time"
  -- Unreachable for every input: `Lesson.start_time` resolution above
  -- always raises, the model having no such column, so the filter over
  -- `store`, the `exclude_lesson_id` clause and the conflict test are
  -- never executed.  The nominal success value stands for the dead code.
  let _ := store
  let _ := exclude_lesson_id
  let _ := instructor_id
  pure (true, none)

/-- `ScheduleValidator.check_vehicle_availability`
(schedule_validator.py lines 184-228); same shape, unbuffered window. -/
def check_vehicle_availability (vehicle_id : Nat)
    (start_time end_time : DateTime) (store : List Lesson)
    (exclude_lesson_id : Option Nat) :
    Except PyErr (Bool × Option ScheduleMsg) := do
  let _ ← lessonClassAttr "vehicle_id"
  let _ ← lessonClassAttr "status"
  let _ ← lessonClassAttr "start_time"
  let _ ← lessonClassAttr "end_time"
  -- Unreachable for every input, as above.
  let _ := store
  let _ := exclude_lesson_id
  let _ := vehicle_id
  let _ := start_time
  let _ := end_time
  pure (true, none)

/-- `ScheduleValidator.validate_schedule` (schedule_validator.py
lines 230-288): the five/six stages in source order, first failure
returned; the availability stages may raise. -/
def validate_schedule (now : DateTime) (start_time end_time : DateTime)
    (instructor_id : Nat) (vehicle_id : Option Nat) (store : List Lesson)
    (exclude_lesson_id : Option Nat) :
    Except PyErr (Bool × Option ScheduleMsg) := do
  match validate_business_hours start_time end_time with
  | some m => pure (false, some m)
  | none =>
  match validate_lesson_duration start_time end_time with
  | some m => pure (false, some m)
  | none =>
  match validate_advance_booking now start_time with
  | some m => pure (false, some m)
  | none =>
  match validate_weekend_scheduling start_time with
  | some m => pure (false, some m)
  | none => do
    let (ok, err) ← check_instructor_availability instructor_id start_time
        end_time store exclude_lesson_id
    if ¬ ok then
      pure (false, err)
    else
      match vehicle_id with
      | some v => do
        let (ok2, err2) ← check_vehicle_availability v start_time end_time
            store exclude_lesson_id
        if ¬ ok2 then pure (false, err2) else pure (true, none)
      | none => pure (true, none)

/-! ## Lesson status update (app/api/lessons.py lines 107-125)

`update_lesson_status` looks the lesson up by primary key (404 when
absent, modelled as `none`) and assigns the requested status
unconditionally — there is no guard on the current status. -/

/-- Committing a mutation of the row with primary key `lesson_id`. -/
def setLesson (store : List Lesson) (lesson_id : Nat) (l' : Lesson) :
    List Lesson :=
  store.map (fun q => if q.id == lesson_id then l' else q)

/-- `update_lesson_status`: returns the datastore after the call and
the response body (`none` for the 404 branch). -/
def update_lesson_status (store : List Lesson) (lesson_id : Nat)
    (status : LessonStatus) : List Lesson × Option Lesson :=
  match store.find? (fun l => l.id == lesson_id) with
  | none => (store, none)
  | some l =>
    let l' := { l with status := status }
    (setLesson store lesson_id l', some l')

/-! ## Payment model (app/models/payment.py, app/models/base.py,
app/models/course.py) -/

inductive PaymentStatus where
  | pending
  | completed
  | failed
  | refunded
  deriving DecidableEq, Repr

/-- A JSON scalar value appearing in a callback payload (M-Pesa sends
numbers and strings; numeric strings are not modelled as numbers). -/
inductive MVal where
  | num (q : ℚ)
  | str (s : String)
  deriving DecidableEq, Repr

/-- The persisted `Payment` row: the columns of `PaymentBase`
(payment.py lines 15-21) plus `created_at` and the `id` primary key
inherited from `BaseModel` (base.py).  `amount` is modelled as a
rational.  The model declares NO `user_id` column. -/
structure Payment where
  id : Nat
  amount : ℚ
  external_ref : Option MVal
  status : PaymentStatus
  timestamp : DateTime
  enrollment_id : Nat
  method : String
  created_at : DateTime
  deriving DecidableEq, Repr

/-- The column names the `Payment` SQLModel class declares
(payment.py lines 15-24 plus base.py's mixins). -/
def paymentColumns : List String :=
  ["amount", "external_ref", "status", "timestamp", "enrollment_id",
   "method", "created_at", "updated_at", "deleted_at", "id"]

/-- Python class-attribute lookup `Payment.<name>`. -/
def paymentClassAttr (name : String) : Except PyErr Unit :=
  if name ∈ paymentColumns then .ok () else .error (.attributeError name)

/-- The `Enrollment` row (course.py lines 33-41); only the columns the
payment engine touches are carried. -/
structure Enrollment where
  id : Nat
  student_id : Nat
  course_id : Nat
  total_paid : ℚ
  deriving DecidableEq, Repr

/-- The committed datastore state seen by the payment endpoints. -/
structure Store where
  payments : List Payment
  enrollments : List Enrollment
  deriving DecidableEq, Repr

/-- Committing a mutation of the payment row with primary key `pid`. -/
def setPayment (ps : List Payment) (pid : Nat) (p' : Payment) :
    List Payment :=
  ps.map (fun q => if q.id == pid then p' else q)

/-- Committing a mutation of the enrollment row with primary key `eid`. -/
def setEnrollment (es : List Enrollment) (eid : Nat) (en' : Enrollment) :
    List Enrollment :=
  es.map (fun q => if q.id == eid then en' else q)

/-! ## Payment validator (app/validators/payment_validator.py) -/

inductive PayMsg where
  | notPositive         -- "Payment amount must be greater than zero"
  | belowMin            -- "Payment amount must be at least KES 100.00"
  | aboveMax            -- "Payment amount cannot exceed KES 500000.00"
  | tooManyDecimals     -- "Payment amount cannot have more than 2 decimal places"
  | dailyLimitExceeded  -- "Daily payment limit of KES 1000000.00 would be exceeded"
  deriving DecidableEq, Repr

def MIN_PAYMENT_AMOUNT : ℚ := 100
def MAX_PAYMENT_AMOUNT : ℚ := 500000
def MAX_DAILY_PAYMENT_LIMIT : ℚ := 1000000

/-- `PaymentValidator.validate_amount` (payment_validator.py
lines 21-45).  `amount.as_tuple().exponent < -2` — more than two
decimal places — is `amount * 100` not being an integer. -/
def validate_amount (amount : ℚ) : Bool × Option PayMsg :=
  if amount ≤ 0 then
    (false, some .notPositive)
  else if amount < MIN_PAYMENT_AMOUNT then
    (false, some .belowMin)
  else if amount > MAX_PAYMENT_AMOUNT then
    (false, some .aboveMax)
  else if ¬ (amount * 100).den = 1 then
    (false, some .tooManyDecimals)
  else
    (true, none)

/-- `PaymentValidator.validate_daily_limit` (payment_validator.py
lines 128-172).  `now` is the defaulted `payment_date`
(`datetime.utcnow()`).  The function computes the calendar-day bounds,
then builds
`select(func.sum(Payment.amount)).where(Payment.user_id == ..., ...)`;
the `where` arguments resolve `Payment` class attributes left to right,
and `Payment.user_id` — a column the model does not declare — raises
`AttributeError` on every call. -/
def validate_daily_limit (user_id : String) (amount : ℚ)
    (now : DateTime) (payments : List Payment) :
    Except PyErr (Bool × Option PayMsg) := do
  let start_of_day : Int := 1440 * (now / 1440)
  let _end_of_day : Int := start_of_day + 1439
  let _ ← paymentClassAttr "amount"
  let _ ← paymentClassAttr "user_id"
  let _ ← paymentClassAttr "created_at"
  let _ ← paymentClassAttr "status"
  -- Unreachable for every input: `Payment.user_id` resolution above
  -- always raises, so the day-sum query is never executed and neither
  -- rejection nor acceptance by the daily-limit rule is ever reached.
  -- The nominal success value stands for the dead code.
  let _ := user_id
  let _ := amount
  let _ := payments
  pure (true, none)

/-! ## Payment initiation (app/api/payments.py lines 16-100) -/

/-- Response bodies `initiate_payment` can produce (besides a raised
exception). -/
inductive InitResp where
  | badRequest (detail : Option PayMsg)  -- HTTPException(400, error)
  | enrollmentNotFound                   -- HTTPException(404)
  | created                              -- nominal success (dead code)
  deriving DecidableEq, Repr

/-- The names resolvable inside the body of `initiate_payment`:
the module-level imports of payments.py (lines 1-12) plus the imports
executed at the top of the function body (lines 28-31).  `datetime` is
not among them, although line 61 uses `datetime.now()`. -/
def paymentsModuleNames : List String :=
  ["Annotated", "List", "UUID", "APIRouter", "Depends", "HTTPException",
   "BackgroundTasks", "Request", "select", "AsyncSession", "BaseModel",
   "deps", "db", "Payment", "PaymentCreate", "PaymentRead",
   "PaymentStatus", "Enrollment", "User", "router", "initiate_payment",
   "Decimal", "PaymentValidator", "log_audit", "MpesaService"]

/-- Python name resolution inside `initiate_payment`. -/
def resolveName (name : String) : Except PyErr Unit :=
  if name ∈ paymentsModuleNames then .ok () else .error (.nameError name)

/-- `initiate_payment` (payments.py lines 16-100): amount validation,
daily-limit validation, enrollment lookup, then construction of the
PENDING row — whose `external_ref` default at line 61 evaluates
`datetime.now()`, an unresolvable name.  Returns the committed store
after the call together with the response or raised error. -/
def initiate_payment (current_user_id : String) (enrollment_id : Nat)
    (amount : ℚ) (now : DateTime) (store : Store) :
    Store × Except PyErr InitResp :=
  let (ok₁, err₁) := validate_amount amount
  if ¬ ok₁ then (store, .ok (.badRequest err₁)) else
  match validate_daily_limit current_user_id amount now store.payments with
  | .error e => (store, .error e)
  | .ok (ok₂, err₂) =>
    if ¬ ok₂ then (store, .ok (.badRequest err₂)) else
    match store.enrollments.find? (fun en => en.id == enrollment_id) with
    | none => (store, .ok .enrollmentNotFound)
    | some _ =>
      match resolveName "datetime" with
      | .error e => (store, .error e)
      | .ok _ =>
        -- Unreachable for every input (`datetime` is not imported, and
        -- the daily-limit stage above has already raised): the PENDING
        -- row commit, the gateway call and its failure handling are
        -- dead code, represented by the nominal success value.
        (store, .ok .created)

/-! ## M-Pesa callback (app/api/payments.py lines 102-157) -/

/-- One entry of `CallbackMetadata.Item`. -/
structure MetaItem where
  name : Option String
  value : Option MVal
  deriving DecidableEq, Repr

/-- The fields `mpesa_callback` extracts from
`payload['Body']['stkCallback']` (payments.py lines 114-118, 132). -/
structure Callback where
  merchant_request_id : Option MVal
  checkout_request_id : Option MVal
  result_code : Option Int
  result_desc : Option MVal
  metadata : List MetaItem
  deriving DecidableEq, Repr

/-- `next((item.get('Value') for item in items if item.get('Name') ==
'Amount'), 0)` (payments.py line 133): the first item named `Amount`
yields its `Value` (possibly absent); the default `0` applies only when
no item is named `Amount`. -/
def metaAmount (items : List MetaItem) : Option MVal :=
  match items.find? (fun it => it.name == some "Amount") with
  | some it => it.value
  | none => some (.num 0)

/-- Line 134, same shape with default `None`. -/
def metaReceipt (items : List MetaItem) : Option MVal :=
  match items.find? (fun it => it.name == some "MpesaReceiptNumber") with
  | some it => it.value
  | none => none

/-- Python `float(x)` as applied at line 143: numbers coerce, `None`
raises `TypeError`, strings raise `ValueError` (numeric strings, which
would coerce, are not modelled — M-Pesa amount items are numbers). -/
def pyFloat (v : Option MVal) : Except PyErr ℚ :=
  match v with
  | some (.num q) => .ok q
  | some (.str _) => .error .valueError
  | none => .error .typeError

/-- `mpesa_callback` (payments.py lines 102-157).  Any exception inside
the handler is caught and answered with `"Error"`, leaving the session
uncommitted, so the committed store is returned unchanged on that path.
The row lookup is `external_ref == CheckoutRequestID`, first match; on
result code 0 the payment is set COMPLETED, its `external_ref` is
overwritten with the payload's receipt number, and — when the linked
enrollment exists — `total_paid` is credited with the payload's amount;
on any other result code the payment is set FAILED.  No branch inspects
the payment's current status. -/
def mpesa_callback (store : Store) (cb : Callback) : Store × String :=
  match store.payments.find?
      (fun p => p.external_ref == cb.checkout_request_id) with
  | none => (store, "Payment not found")
  | some p =>
    if cb.result_code == some 0 then
      let receipt := metaReceipt cb.metadata
      let p' := { p with status := .completed, external_ref := receipt }
      match store.enrollments.find? (fun en => en.id == p.enrollment_id) with
      | some en =>
        match pyFloat (metaAmount cb.metadata) with
        | .error _ => (store, "Error")
        | .ok amt =>
          ({ payments := setPayment store.payments p.id p',
             enrollments := setEnrollment store.enrollments en.id
               { en with total_paid := en.total_paid + amt } },
           "Callback Processed")
      | none =>
        ({ store with payments := setPayment store.payments p.id p' },
         "Callback Processed")
    else
      ({ store with
         payments := setPayment store.payments p.id
           { p with status := .failed } },
       "Callback Processed")

/-! ## Shared lemmas -/

/-- `find?` over `pre ++ x :: post` returns `x` when nothing in `pre`
satisfies the predicate and `x` does (the "first matching row" of a
query). -/
theorem find?_append_first {α : Type} (p : α → Bool) (pre post : List α)
    (x : α) (hpre : ∀ q ∈ pre, p q = false) (hx : p x = true) :
    (pre ++ x :: post).find? p = some x := by
  induction pre with
  | nil => simpa [List.find?_cons_of_pos] using List.find?_cons_of_pos post hx
  | cons a as ih =>
    have ha : p a = false := hpre a (List.mem_cons_self a as)
    rw [List.cons_append, List.find?_cons_of_neg _ (by simp [ha])]
    exact ih (fun q hq => hpre q (List.mem_cons_of_mem a hq))

/-- Committing an update keyed by an id touches nothing when no row in
the list carries that id (`setLesson` case). -/
theorem setLesson_map_id (l' : Lesson) (k : Nat) (ls : List Lesson)
    (h : ∀ q ∈ ls, q.id ≠ k) :
    ls.map (fun q => if q.id == k then l' else q) = ls := by
  induction ls with
  | nil => rfl
  | cons a as ih =>
    have ha : (a.id == k) = false := by
      simpa using h a (List.mem_cons_self a as)
    rw [List.map_cons, ha, ih (fun q hq => h q (List.mem_cons_of_mem a hq))]
    simp

/-- `setLesson` on `pre ++ l :: post` replaces exactly `l` when the ids
of `pre` and `post` differ from `l.id`. -/
theorem setLesson_append (pre post : List Lesson) (l l' : Lesson)
    (hpre : ∀ q ∈ pre, q.id ≠ l.id) (hpost : ∀ q ∈ post, q.id ≠ l.id) :
    setLesson (pre ++ l :: post) l.id l' = pre ++ l' :: post := by
  unfold setLesson
  rw [List.map_append, List.map_cons, if_pos (by simp),
    setLesson_map_id l' l.id pre hpre, setLesson_map_id l' l.id post hpost]

/-- As `setLesson_map_id`, for payments. -/
theorem setPayment_map_id (p' : Payment) (k : Nat) (ps : List Payment)
    (h : ∀ q ∈ ps, q.id ≠ k) :
    ps.map (fun q => if q.id == k then p' else q) = ps := by
  induction ps with
  | nil => rfl
  | cons a as ih =>
    have ha : (a.id == k) = false := by
      simpa using h a (List.mem_cons_self a as)
    rw [List.map_cons, ha, ih (fun q hq => h q (List.mem_cons_of_mem a hq))]
    simp

/-- As `setLesson_append`, for payments. -/
theorem setPayment_append (pre post : List Payment) (p p' : Payment)
    (hpre : ∀ q ∈ pre, q.id ≠ p.id) (hpost : ∀ q ∈ post, q.id ≠ p.id) :
    setPayment (pre ++ p :: post) p.id p' = pre ++ p' :: post := by
  unfold setPayment
  rw [List.map_append, List.map_cons, if_pos (by simp),
    setPayment_map_id p' p.id pre hpre, setPayment_map_id p' p.id post hpost]

/-- As `setLesson_map_id`, for enrollments. -/
theorem setEnrollment_map_id (e' : Enrollment) (k : Nat)
    (es : List Enrollment) (h : ∀ q ∈ es, q.id ≠ k) :
    es.map (fun q => if q.id == k then e' else q) = es := by
  induction es with
  | nil => rfl
  | cons a as ih =>
    have ha : (a.id == k) = false := by
      simpa using h a (List.mem_cons_self a as)
    rw [List.map_cons, ha, ih (fun q hq => h q (List.mem_cons_of_mem a hq))]
    simp

/-- As `setLesson_append`, for enrollments. -/
theorem setEnrollment_append (pre post : List Enrollment)
    (en en' : Enrollment)
    (hpre : ∀ q ∈ pre, q.id ≠ en.id) (hpost : ∀ q ∈ post, q.id ≠ en.id) :
    setEnrollment (pre ++ en :: post) en.id en' = pre ++ en' :: post := by
  unfold setEnrollment
  rw [List.map_append, List.map_cons, if_pos (by simp),
    setEnrollment_map_id en' en.id pre hpre,
    setEnrollment_map_id en' en.id post hpost]

/-- The instructor-availability query raises at statement-construction
time: `Lesson.start_time` is not a declared column. -/
theorem check_instructor_availability_raises (i : Nat) (s e : DateTime)
    (store : List Lesson) (ex : Option Nat) :
    check_instructor_availability i s e store ex
      = .error (.attributeError "start_time") := rfl

/-- Same for the vehicle-availability query. -/
theorem check_vehicle_availability_raises (v : Nat) (s e : DateTime)
    (store : List Lesson) (ex : Option Nat) :
    check_vehicle_availability v s e store ex
      = .error (.attributeError "start_time") := rfl

/-- The daily-limit check raises at statement-construction time:
`Payment.user_id` is not a declared column. -/
theorem validate_daily_limit_raises (u : String) (a : ℚ)
    (now : DateTime) (ps : List Payment) :
    validate_daily_limit u a now ps
      = .error (.attributeError "user_id") := rfl

/-! ## Claim theorems -/

/-- C3: for all well-formed intervals (existing lesson `[s,e)` with
`s < e`, query window `[a,b)` with `a < b`), the three-disjunct
condition of the availability queries holds iff the half-open intervals
intersect (`s < b ∧ a < e`); the instructor check applies it to the
window `[start − MIN_BREAK_MINUTES, end + MIN_BREAK_MINUTES)` and the
vehicle check to the unbuffered `[start, end)`. -/
theorem conflict_condition_iff_intersection (s e a b : Int)
    (hse : s < e) (hab : a < b) :
    (instructorConflictCond s e a b = true ↔
      (s < b + MIN_BREAK_MINUTES ∧ a - MIN_BREAK_MINUTES < e)) ∧
    (vehicleConflictCond s e a b = true ↔ (s < b ∧ a < e)) := by
  unfold instructorConflictCond vehicleConflictCond conflictCond
    MIN_BREAK_MINUTES
  constructor <;> simp only [decide_eq_true_eq] <;> omega

/-- Witness for C3 at the concrete lesson `[0,60)` against the window
`[30,90)`. -/
theorem conflict_condition_iff_intersection_witness :
    (instructorConflictCond 0 60 30 90 = true ↔
      ((0 : Int) < 90 + MIN_BREAK_MINUTES ∧
       (30 : Int) - MIN_BREAK_MINUTES < 60)) ∧
    (vehicleConflictCond 0 60 30 90 = true ↔
      ((0 : Int) < 90 ∧ (30 : Int) < 60)) :=
  conflict_condition_iff_intersection 0 60 30 90 (by decide) (by decide)

/-- C4 counterexample: a Monday lesson 17:30–19:00 (minutes 1050–1140
from a Monday-00:00 epoch) is rejected although the claim says a
weekday lesson ending exactly at 19:00 is accepted; and a Saturday
lesson 16:00–18:00 (minutes 8160–8280) passes both checks although the
claim says a Saturday lesson ending after 17:00 is rejected. -/
theorem business_hours_c4_counterexample :
    validate_business_hours 1050 1140 = some ScheduleMsg.endAfter19 ∧
    validate_business_hours 8160 8280 = none ∧
    validate_weekend_scheduling 8160 = none := by
  refine ⟨?_, ?_, ?_⟩ <;> decide

/-- C4 as amended: the combined business-hour/weekend check accepts a
window iff the start hour lies in 07–18, the end's hour-of-day is at
most 18 (so an end exactly at 19:00 is rejected, while an end before
07:00 is not itself checked), the start day is not Sunday, and a
Saturday start hour lies in 08–16 — the end time is never checked
against the Saturday window. -/
theorem business_window_characterization (s e : DateTime) :
    (validate_business_hours s e = none ∧
     validate_weekend_scheduling s = none) ↔
    (7 ≤ s.hour ∧ s.hour < 19 ∧ e.hour < 19 ∧ s.weekday ≠ 6 ∧
     (s.weekday = 5 → 8 ≤ s.hour ∧ s.hour < 17)) := by
  unfold validate_business_hours validate_weekend_scheduling
    BUSINESS_START_HOUR BUSINESS_END_HOUR DateTime.hour DateTime.minute
    DateTime.weekday
  split_ifs <;> simp_all <;> omega

/-- C5 counterexample: for the booking `start = Monday 06:00`,
`end = Monday 05:00` (end before start, start before opening), the
claim's order says the first failure is the `end > start` rule; the
code instead returns the business-hours failure, which it checks
first. -/
theorem validate_schedule_order_counterexample :
    validate_schedule 0 360 300 0 none [] none
      = .ok (false, some ScheduleMsg.startBefore7) ∧
    some ScheduleMsg.startBefore7 ≠ some ScheduleMsg.endNotAfterStart :=
  ⟨rfl, by decide⟩

/-- C5 as amended: `validate_schedule` enforces its stages in the fixed
order (1) business-hours window, (2) `end > start` and duration in
[30,180], (3) advance-booking window, (4) Sunday/Saturday start check,
returning the first failure; every request passing all four then
raises `AttributeError` inside the instructor-availability query
(`Lesson.start_time` is not a column), so the vehicle check and the
success path are unreachable. -/
theorem validate_schedule_stage_order (now s e : DateTime) (i : Nat)
    (v : Option Nat) (store : List Lesson) (ex : Option Nat) :
    validate_schedule now s e i v store ex =
      match validate_business_hours s e with
      | some m => .ok (false, some m)
      | none =>
        match validate_lesson_duration s e with
        | some m => .ok (false, some m)
        | none =>
          match validate_advance_booking now s with
          | some m => .ok (false, some m)
          | none =>
            match validate_weekend_scheduling s with
            | some m => .ok (false, some m)
            | none => .error (.attributeError "start_time") := by
  unfold validate_schedule
  cases validate_business_hours s e <;>
    cases validate_lesson_duration s e <;>
      cases validate_advance_booking now s <;>
        cases validate_weekend_scheduling s <;> rfl

/-- C10: the conflict queries of both availability checks filter on
`Lesson.start_time` and `Lesson.end_time`, columns the persisted
`Lesson` model does not declare; hence every call fails with the
attribute-lookup error, independent of the datastore contents — the
stored lessons' intervals are never evaluated. -/
theorem availability_checks_always_raise (i v : Nat) (s e : DateTime)
    (store : List Lesson) (ex : Option Nat) :
    "start_time" ∉ lessonColumns ∧ "end_time" ∉ lessonColumns ∧
    check_instructor_availability i s e store ex
      = .error (.attributeError "start_time") ∧
    check_vehicle_availability v s e store ex
      = .error (.attributeError "start_time") :=
  ⟨by decide, by decide,
   check_instructor_availability_raises i s e store ex,
   check_vehicle_availability_raises v s e store ex⟩

/-- C6 counterexample: with no prior payments and amount 100 the
rolling 24-hour sum plus the amount is far below `MAX_DAILY_LIMIT`, so
the claim says the daily-limit check passes; the code instead raises
`AttributeError` (its query reads `Payment.user_id`, a column the
`Payment` model does not declare) and never returns a verdict. -/
theorem validate_daily_limit_c6_counterexample :
    validate_daily_limit "u" 100 0 []
      = .error (.attributeError "user_id") ∧
    (Except.error (PyErr.attributeError "user_id")
      : Except PyErr (Bool × Option PayMsg)) ≠ .ok (true, none) :=
  ⟨rfl, by simp⟩

/-- C6 as amended: the daily-limit stage neither passes nor rejects any
initiation: `validate_daily_limit` builds its sum query by reading
`Payment.user_id`, a column the `Payment` model does not declare, so
every call raises `AttributeError`; the window it computes before
failing is the calendar day of `now`, not a rolling 24-hour window. -/
theorem validate_daily_limit_always_raises (u : String) (a : ℚ)
    (now : DateTime) (ps : List Payment) :
    validate_daily_limit u a now ps
      = .error (.attributeError "user_id") :=
  validate_daily_limit_raises u a now ps

/-- C7: for every initiation whose amount passes validation, the call
raises before any row is committed — the daily-limit query raises
`AttributeError` (`Payment.user_id` undefined), and even past it the
PENDING-row construction would raise `NameError` (`datetime` is not
imported in payments.py) — so the committed store is unchanged, no
PENDING row exists, and the gateway is never reached. -/
theorem initiate_payment_never_commits (uid : String) (eid : Nat)
    (amount : ℚ) (now : DateTime) (store : Store)
    (h : validate_amount amount = (true, none)) :
    initiate_payment uid eid amount now store
      = (store, .error (.attributeError "user_id")) ∧
    "user_id" ∉ paymentColumns ∧
    "datetime" ∉ paymentsModuleNames := by
  refine ⟨?_, by decide, by decide⟩
  unfold initiate_payment
  rw [h, validate_daily_limit_raises]
  simp

/-- Witness for C7 at a concrete validated initiation (amount 5000,
one enrollment on file, empty payment history). -/
theorem initiate_payment_never_commits_witness :
    initiate_payment "u" 1 5000 0 ⟨[], [⟨1, 2, 3, 0⟩]⟩
      = (⟨[], [⟨1, 2, 3, 0⟩]⟩, .error (.attributeError "user_id")) ∧
    "user_id" ∉ paymentColumns ∧
    "datetime" ∉ paymentsModuleNames :=
  initiate_payment_never_commits "u" 1 5000 0 ⟨[], [⟨1, 2, 3, 0⟩]⟩
    (by norm_num [validate_amount, MIN_PAYMENT_AMOUNT, MAX_PAYMENT_AMOUNT])

/-- C8 counterexample: a lesson already in the terminal state COMPLETED
is transitioned back to SCHEDULED by `update_lesson_status`, which the
claim says performs no transition out of a terminal state. -/
theorem update_lesson_status_terminal_counterexample :
    update_lesson_status
      [⟨1, 600, LessonStatus.completed, LessonType.practical, none, 60,
        1, 1, none⟩]
      1 LessonStatus.scheduled
    = ([⟨1, 600, LessonStatus.scheduled, LessonType.practical, none, 60,
         1, 1, none⟩],
       some ⟨1, 600, LessonStatus.scheduled, LessonType.practical, none,
         60, 1, 1, none⟩) := by
  decide

/-- C8 as amended: `update_lesson_status` assigns the requested status
unconditionally — for every stored lesson, whatever its current status
(terminal states included), the row is overwritten with the requested
status and returned. -/
theorem update_lesson_status_unconditional (pre post : List Lesson)
    (l : Lesson) (st : LessonStatus)
    (hpre : ∀ q ∈ pre, q.id ≠ l.id) (hpost : ∀ q ∈ post, q.id ≠ l.id) :
    update_lesson_status (pre ++ l :: post) l.id st
      = (pre ++ { l with status := st } :: post,
         some { l with status := st }) := by
  unfold update_lesson_status
  rw [find?_append_first _ _ _ _ (fun q hq => by simpa using hpre q hq)
    (by simp)]
  dsimp only
  rw [setLesson_append pre post l _ hpre hpost]

/-- Witness for C8 as amended at a concrete CANCELLED (terminal) lesson
being set to COMPLETED. -/
theorem update_lesson_status_unconditional_witness :
    update_lesson_status
      ([] ++ (⟨2, 720, LessonStatus.cancelled, LessonType.theory, none,
        90, 4, 5, some 6⟩ : Lesson) :: [])
      2 LessonStatus.completed
    = ([] ++ ({ (⟨2, 720, LessonStatus.cancelled, LessonType.theory,
          none, 90, 4, 5, some 6⟩ : Lesson) with
          status := LessonStatus.completed } : Lesson) :: [],
       some { (⟨2, 720, LessonStatus.cancelled, LessonType.theory, none,
          90, 4, 5, some 6⟩ : Lesson) with
          status := LessonStatus.completed }) :=
  update_lesson_status_unconditional [] []
    ⟨2, 720, LessonStatus.cancelled, LessonType.theory, none, 90, 4, 5,
      some 6⟩
    LessonStatus.completed (by simp) (by simp)

/-- C9: a callback whose correlation id matches no stored payment's
external reference mutates no record and is answered with the
"Payment not found" body; the handler returns normally (its `except`
clause means it never propagates an exception, and this path does not
even reach one). -/
theorem mpesa_callback_unmatched_noop (store : Store) (cb : Callback)
    (h : ∀ p ∈ store.payments,
      p.external_ref ≠ cb.checkout_request_id) :
    mpesa_callback store cb = (store, "Payment not found") := by
  unfold mpesa_callback
  rw [List.find?_eq_none.mpr (fun p hp => by simpa using h p hp)]

/-- Witness for C9: one stored payment with reference "A", callback
carrying the unknown correlation id "B". -/
theorem mpesa_callback_unmatched_noop_witness :
    mpesa_callback
      ⟨[⟨1, 500, some (MVal.str "A"), PaymentStatus.pending, 0, 7,
         "MPESA", 0⟩], [⟨7, 2, 3, 0⟩]⟩
      ⟨none, some (MVal.str "B"), some 0, none, []⟩
    = (⟨[⟨1, 500, some (MVal.str "A"), PaymentStatus.pending, 0, 7,
          "MPESA", 0⟩], [⟨7, 2, 3, 0⟩]⟩, "Payment not found") :=
  mpesa_callback_unmatched_noop _ _ (by simp)

/-- C1 counterexample: a payment already in the terminal state FAILED,
still carrying correlation id "X", is matched by a success callback for
"X": the handler re-processes it — status becomes COMPLETED, the
external reference becomes the receipt "R", the enrollment is credited
500 — and the response is "Callback Processed", not "already
processed".  The claim says this callback is a no-op. -/
theorem mpesa_callback_terminal_reprocessed_counterexample :
    mpesa_callback
      ⟨[⟨1, 500, some (MVal.str "X"), PaymentStatus.failed, 0, 7,
         "MPESA", 0⟩], [⟨7, 2, 3, 0⟩]⟩
      ⟨none, some (MVal.str "X"), some 0, none,
       [⟨some "Amount", some (MVal.num 500)⟩,
        ⟨some "MpesaReceiptNumber", some (MVal.str "R")⟩]⟩
    = (⟨[⟨1, 500, some (MVal.str "R"), PaymentStatus.completed, 0, 7,
          "MPESA", 0⟩], [⟨7, 2, 3, 500⟩]⟩, "Callback Processed") := by
  simp only [mpesa_callback, metaReceipt, metaAmount, pyFloat,
    setPayment, setEnrollment, List.find?]
  norm_num
  decide

/-- C1 as amended: the callback handler performs no terminal-state
check — its behaviour does not depend on the matched payment's current
status at all (a success callback always sets COMPLETED, overwrites the
external reference with the receipt and credits the enrollment; a
failure callback always sets FAILED), and no "already processed" report
exists: the matched branches answer "Callback Processed" (or "Error"
when crediting raises).  Stated for payloads whose Amount item is
numeric, as real M-Pesa payloads are. -/
theorem mpesa_callback_ignores_prior_status (cb : Callback)
    (pre post : List Payment) (es : List Enrollment) (p : Payment)
    (st : PaymentStatus) (a : ℚ)
    (hpre : ∀ q ∈ pre, q.external_ref ≠ cb.checkout_request_id)
    (hp : p.external_ref = cb.checkout_request_id)
    (ha : metaAmount cb.metadata = some (MVal.num a)) :
    mpesa_callback ⟨pre ++ { p with status := st } :: post, es⟩ cb
      = mpesa_callback ⟨pre ++ p :: post, es⟩ cb ∧
    (mpesa_callback ⟨pre ++ { p with status := st } :: post, es⟩ cb).2
      ≠ "already processed" := by
  have hb : ∀ q ∈ pre,
      (q.external_ref == cb.checkout_request_id) = false :=
    fun q hq => by simpa using hpre q hq
  have hfind₁ : (pre ++ { p with status := st } :: post).find?
      (fun q => q.external_ref == cb.checkout_request_id)
      = some { p with status := st } :=
    find?_append_first _ _ _ _ hb (by simp [hp])
  have hfind₂ : (pre ++ p :: post).find?
      (fun q => q.external_ref == cb.checkout_request_id) = some p :=
    find?_append_first _ _ _ _ hb (by simp [hp])
  constructor
  · unfold mpesa_callback
    dsimp only
    rw [hfind₁, hfind₂]
    dsimp only
    rw [ha]
    simp only [setPayment, List.map_append, List.map_cons,
      beq_self_eq_true, if_true, pyFloat]
  · unfold mpesa_callback
    dsimp only
    rw [hfind₁]
    repeat' split
    all_goals simp

/-- Witness for C1 as amended: a FAILED payment carrying reference "X"
and a PENDING copy of the same payment produce the same outcome for the
same success callback. -/
theorem mpesa_callback_ignores_prior_status_witness :
    mpesa_callback
      ⟨[] ++ { (⟨1, 500, some (MVal.str "X"), PaymentStatus.pending, 0,
          7, "MPESA", 0⟩ : Payment) with
          status := PaymentStatus.failed } :: [], [⟨7, 2, 3, 0⟩]⟩
      ⟨none, some (MVal.str "X"), some 0, none,
       [⟨some "Amount", some (MVal.num 500)⟩,
        ⟨some "MpesaReceiptNumber", some (MVal.str "R")⟩]⟩
    = mpesa_callback
      ⟨[] ++ (⟨1, 500, some (MVal.str "X"), PaymentStatus.pending, 0, 7,
          "MPESA", 0⟩ : Payment) :: [], [⟨7, 2, 3, 0⟩]⟩
      ⟨none, some (MVal.str "X"), some 0, none,
       [⟨some "Amount", some (MVal.num 500)⟩,
        ⟨some "MpesaReceiptNumber", some (MVal.str "R")⟩]⟩ ∧
    (mpesa_callback
      ⟨[] ++ { (⟨1, 500, some (MVal.str "X"), PaymentStatus.pending, 0,
          7, "MPESA", 0⟩ : Payment) with
          status := PaymentStatus.failed } :: [], [⟨7, 2, 3, 0⟩]⟩
      ⟨none, some (MVal.str "X"), some 0, none,
       [⟨some "Amount", some (MVal.num 500)⟩,
        ⟨some "MpesaReceiptNumber", some (MVal.str "R")⟩]⟩).2
      ≠ "already processed" :=
  mpesa_callback_ignores_prior_status
    ⟨none, some (MVal.str "X"), some 0, none,
     [⟨some "Amount", some (MVal.num 500)⟩,
      ⟨some "MpesaReceiptNumber", some (MVal.str "R")⟩]⟩
    [] []
    [⟨7, 2, 3, 0⟩]
    ⟨1, 500, some (MVal.str "X"), PaymentStatus.pending, 0, 7, "MPESA",
      0⟩
    PaymentStatus.failed 500 (by simp) rfl (by simp [metaAmount, List.find?])

/-- C2 counterexample: a structurally valid success payload whose
`MpesaReceiptNumber` equals its `CheckoutRequestID` ("X").  The first
delivery credits the enrollment (total 500) and overwrites the
payment's reference with the receipt — still "X" — so the second,
identical delivery matches the same payment again and credits again
(total 1000): the enrollment is credited twice, not exactly once. -/
theorem mpesa_callback_double_credit_counterexample :
    (mpesa_callback
      ⟨[⟨1, 500, some (MVal.str "X"), PaymentStatus.pending, 0, 7,
         "MPESA", 0⟩], [⟨7, 2, 3, 0⟩]⟩
      ⟨none, some (MVal.str "X"), some 0, none,
       [⟨some "Amount", some (MVal.num 500)⟩,
        ⟨some "MpesaReceiptNumber", some (MVal.str "X")⟩]⟩).1.enrollments
      = [⟨7, 2, 3, 500⟩] ∧
    (mpesa_callback
      (mpesa_callback
        ⟨[⟨1, 500, some (MVal.str "X"), PaymentStatus.pending, 0, 7,
           "MPESA", 0⟩], [⟨7, 2, 3, 0⟩]⟩
        ⟨none, some (MVal.str "X"), some 0, none,
         [⟨some "Amount", some (MVal.num 500)⟩,
          ⟨some "MpesaReceiptNumber", some (MVal.str "X")⟩]⟩).1
      ⟨none, some (MVal.str "X"), some 0, none,
       [⟨some "Amount", some (MVal.num 500)⟩,
        ⟨some "MpesaReceiptNumber", some (MVal.str "X")⟩]⟩).1.enrollments
      = [⟨7, 2, 3, 1000⟩] := by
  refine ⟨?_, ?_⟩ <;>
      simp [mpesa_callback, metaReceipt, metaAmount, pyFloat,
        setPayment, setEnrollment, List.find?]
  norm_num

/-- C2 as amended: when the payload's receipt id differs from its
checkout id (as real gateway payloads do — the counterexample needs
them equal), and the checkout id matches exactly one stored payment,
delivering the identical successful payload twice credits the linked
enrollment exactly once: the first delivery completes the payment,
overwrites its external reference with the receipt and adds the
payload amount to `total_paid`; the second delivery then matches no
payment and changes nothing, answering "Payment not found". -/
theorem mpesa_callback_credits_once_when_receipt_differs
    (cb : Callback) (pre post : List Payment)
    (epre epost : List Enrollment) (p : Payment) (en : Enrollment)
    (a : ℚ)
    (hrc : cb.result_code = some 0)
    (hp : p.external_ref = cb.checkout_request_id)
    (hpre : ∀ q ∈ pre, q.external_ref ≠ cb.checkout_request_id)
    (hpost : ∀ q ∈ post, q.external_ref ≠ cb.checkout_request_id)
    (hid : ∀ q ∈ pre ++ post, q.id ≠ p.id)
    (hen : en.id = p.enrollment_id)
    (hepre : ∀ x ∈ epre, x.id ≠ p.enrollment_id)
    (heid : ∀ x ∈ epre ++ epost, x.id ≠ en.id)
    (ha : metaAmount cb.metadata = some (MVal.num a))
    (hrot : metaReceipt cb.metadata ≠ cb.checkout_request_id) :
    mpesa_callback ⟨pre ++ p :: post, epre ++ en :: epost⟩ cb
      = (⟨pre ++ { p with
            status := .completed
            external_ref := metaReceipt cb.metadata } :: post,
          epre ++ { en with total_paid := en.total_paid + a } :: epost⟩,
         "Callback Processed") ∧
    mpesa_callback
        ⟨pre ++ { p with
            status := .completed
            external_ref := metaReceipt cb.metadata } :: post,
         epre ++ { en with total_paid := en.total_paid + a } :: epost⟩ cb
      = (⟨pre ++ { p with
            status := .completed
            external_ref := metaReceipt cb.metadata } :: post,
          epre ++ { en with total_paid := en.total_paid + a } :: epost⟩,
         "Payment not found") := by
  have hfind : (pre ++ p :: post).find?
      (fun q => q.external_ref == cb.checkout_request_id) = some p :=
    find?_append_first _ _ _ _ (fun q hq => by simpa using hpre q hq)
      (by simp [hp])
  have hefind : (epre ++ en :: epost).find?
      (fun x => x.id == p.enrollment_id) = some en :=
    find?_append_first _ _ _ _ (fun x hx => by simpa using hepre x hx)
      (by simp [hen])
  have hpreid : ∀ q ∈ pre, q.id ≠ p.id :=
    fun q hq => hid q (List.mem_append_left post hq)
  have hpostid : ∀ q ∈ post, q.id ≠ p.id :=
    fun q hq => hid q (List.mem_append_right pre hq)
  have hepreid : ∀ x ∈ epre, x.id ≠ en.id :=
    fun x hx => heid x (List.mem_append_left epost hx)
  have hepostid : ∀ x ∈ epost, x.id ≠ en.id :=
    fun x hx => heid x (List.mem_append_right epre hx)
  constructor
  · unfold mpesa_callback
    dsimp only
    rw [hfind, hrc]
    dsimp only
    rw [hefind, ha]
    dsimp only [pyFloat]
    rw [setPayment_append pre post p _ hpreid hpostid,
      setEnrollment_append epre epost en _ hepreid hepostid]
    simp
  · have hnone : (pre ++ { p with
        status := .completed
        external_ref := metaReceipt cb.metadata } :: post).find?
        (fun q => q.external_ref == cb.checkout_request_id) = none := by
      rw [List.find?_eq_none]
      intro q hq
      rcases List.mem_append.mp hq with h | h
      · simpa using hpre q h
      · rcases List.mem_cons.mp h with h | h
        · subst h
          simpa using hrot
        · simpa using hpost q h
    unfold mpesa_callback
    dsimp only
    rw [hnone]

/-- Witness for C2 as amended: payment PENDING with reference "X",
success payload with checkout id "X", receipt "R" and amount 500,
enrollment 7 starting at 0. -/
theorem mpesa_callback_credits_once_when_receipt_differs_witness :
    mpesa_callback
      ⟨[] ++ (⟨1, 500, some (MVal.str "X"), PaymentStatus.pending, 0, 7,
          "MPESA", 0⟩ : Payment) :: [],
       [] ++ (⟨7, 2, 3, 0⟩ : Enrollment) :: []⟩
      ⟨none, some (MVal.str "X"), some 0, none,
       [⟨some "Amount", some (MVal.num 500)⟩,
        ⟨some "MpesaReceiptNumber", some (MVal.str "R")⟩]⟩
      = (⟨[] ++ ({ (⟨1, 500, some (MVal.str "X"), PaymentStatus.pending,
              0, 7, "MPESA", 0⟩ : Payment) with
              status := PaymentStatus.completed
              external_ref := metaReceipt
                [⟨some "Amount", some (MVal.num 500)⟩,
                 ⟨some "MpesaReceiptNumber", some (MVal.str "R")⟩] }) :: [],
          [] ++ ({ (⟨7, 2, 3, 0⟩ : Enrollment) with
              total_paid := (0 : ℚ) + 500 }) :: []⟩,
         "Callback Processed") ∧
    mpesa_callback
      ⟨[] ++ ({ (⟨1, 500, some (MVal.str "X"), PaymentStatus.pending, 0,
            7, "MPESA", 0⟩ : Payment) with
            status := PaymentStatus.completed
            external_ref := metaReceipt
              [⟨some "Amount", some (MVal.num 500)⟩,
               ⟨some "MpesaReceiptNumber", some (MVal.str "R")⟩] }) :: [],
       [] ++ ({ (⟨7, 2, 3, 0⟩ : Enrollment) with
            total_paid := (0 : ℚ) + 500 }) :: []⟩
      ⟨none, some (MVal.str "X"), some 0, none,
       [⟨some "Amount", some (MVal.num 500)⟩,
        ⟨some "MpesaReceiptNumber", some (MVal.str "R")⟩]⟩
      = (⟨[] ++ ({ (⟨1, 500, some (MVal.str "X"), PaymentStatus.pending,
              0, 7, "MPESA", 0⟩ : Payment) with
              status := PaymentStatus.completed
              external_ref := metaReceipt
                [⟨some "Amount", some (MVal.num 500)⟩,
                 ⟨some "MpesaReceiptNumber", some (MVal.str "R")⟩] }) :: [],
          [] ++ ({ (⟨7, 2, 3, 0⟩ : Enrollment) with
              total_paid := (0 : ℚ) + 500 }) :: []⟩,
         "Payment not found") :=
  mpesa_callback_credits_once_when_receipt_differs
    ⟨none, some (MVal.str "X"), some 0, none,
     [⟨some "Amount", some (MVal.num 500)⟩,
      ⟨some "MpesaReceiptNumber", some (MVal.str "R")⟩]⟩
    [] [] [] []
    ⟨1, 500, some (MVal.str "X"), PaymentStatus.pending, 0, 7, "MPESA",
      0⟩
    ⟨7, 2, 3, 0⟩ 500
    rfl rfl (by simp) (by simp) (by simp) rfl (by simp) (by simp)
    (by simp [metaAmount, List.find?])
    (by simp [metaReceipt, List.find?])

end IDSMS
